import Mathlib

/-!
Shallow embedding of `src/main.py` (Feel_components): a thin layer of
adapter classes, each wrapping one widget of the external `flet` toolkit.
Python dicts passed as `**kwargs` are modelled as association lists with
opaque values (`Kwargs`); Python callables are modelled by opaque
identifiers (`Callback`); numeric literals by rationals.
-/

/-- A configuration bag (`**kwargs`): option name to opaque value. -/
abbrev Kwargs := List (String × Nat)

/-- A Python callable, opaque to this layer, modelled by an identifier. -/
abbrev Callback := Nat

/-! ## Heading (src/main.py lines 72–79) -/

/-- The `sizes` dict literal `{1: 32, 2: 24, 3: 18.72, 4: 16, 5: 13.28, 6: 10.72}`
in `Heading.__init__`, as an association list over `ℤ` keys. -/
def headingSizes : List (ℤ × ℚ) :=
  [(1, 32), (2, 24), (3, 1872/100), (4, 16), (5, 1328/100), (6, 1072/100)]

/-- Python `dict.get(k, default)` on an association list. -/
def dictGet (d : List (ℤ × ℚ)) (k : ℤ) (default : ℚ) : ℚ :=
  match d with
  | [] => default
  | (k', v) :: rest => if k' = k then v else dictGet rest k default

/-- The `ft.Text` widget as configured by `Heading`: value, size, weight. -/
structure HeadingText where
  value : String
  size : ℚ
  weight : String
deriving DecidableEq

/-- `Heading.__init__`: `ft.Text(text, size=sizes.get(level, 16), weight="bold")`;
`build` returns this stored widget. -/
def headingBuild (level : ℤ) (text : String) : HeadingText :=
  { value := text, size := dictGet headingSizes level 16, weight := "bold" }

/-! ## Alert (src/main.py lines 252–270) -/

/-- The `ft.colors` constants used by `Alert`. -/
inductive FtColor where
  | blue | green | orange | red
deriving DecidableEq

/-- The `colors` dict literal in `Alert.__init__`. -/
def alertColors : List (String × FtColor) :=
  [("info", .blue), ("success", .green), ("warning", .orange), ("error", .red)]

/-- Python `dict.get(k, default)` on the severity-to-color association list. -/
def colorGet (d : List (String × FtColor)) (k : String) (default : FtColor) : FtColor :=
  match d with
  | [] => default
  | (k', v) :: rest => if k' = k then v else colorGet rest k default

/-- The `ft.Container` built by `Alert`: text content, bgcolor, padding,
border radius, plus the forwarded configuration bag. -/
structure AlertContainer where
  text : String
  bgcolor : FtColor
  padding : ℤ
  borderRadius : ℤ
  kwargs : Kwargs
deriving DecidableEq

/-- `Alert.__init__`: `ft.Container(content=ft.Text(text),
bgcolor=colors.get(severity, ft.colors.BLUE), padding=10, border_radius=5, **kwargs)`;
`build` returns this stored widget. -/
def alertBuild (text severity : String) (kwargs : Kwargs) : AlertContainer :=
  { text := text
    bgcolor := colorGet alertColors severity .blue
    padding := 10
    borderRadius := 5
    kwargs := kwargs }

/-! ## Value-bearing adapters (src/main.py: Text 9–24, Input 39–54,
Checkbox 149–164, RadioGroup 166–185, Dropdown 187–205, Slider 207–222,
ProgressBar 224–239)

Each wraps one widget holding a mutable `value`; the `value` property getter
reads the widget field, the setter writes it and calls `self.update()` once,
which requests a redisplay.  `updates` counts the `self.update()` calls made
so far, i.e. the redisplays triggered.  Where the widget's initial value can
only arrive through the forwarded `**kwargs` bag (Input, RadioGroup,
Dropdown), that single `value` option is modelled explicitly as an
`Option`-typed constructor argument (`none` = toolkit default). -/

structure TextState where
  value : String
  kwargs : Kwargs
  updates : ℕ
deriving DecidableEq

/-- `Text.__init__`: `self.text_control = ft.Text(text, **kwargs)`. -/
def textInit (text : String) (kwargs : Kwargs) : TextState :=
  { value := text, kwargs := kwargs, updates := 0 }

/-- `Text.value` getter: reads `self.text_control.value`, no state change. -/
def textGet (s : TextState) : String × TextState := (s.value, s)

/-- `Text.value` setter: writes the widget value, then `self.update()`. -/
def textSet (s : TextState) (v : String) : TextState :=
  { s with value := v, updates := s.updates + 1 }

structure InputState where
  hintText : String
  value : Option String
  kwargs : Kwargs
  updates : ℕ
deriving DecidableEq

/-- `Input.__init__`: `self.input = ft.TextField(hint_text=placeholder, **kwargs)`;
`valueKwarg` is the `value` option of the bag, if passed. -/
def inputInit (placeholder : String) (valueKwarg : Option String)
    (kwargs : Kwargs) : InputState :=
  { hintText := placeholder, value := valueKwarg, kwargs := kwargs, updates := 0 }

/-- `Input.value` getter. -/
def inputGet (s : InputState) : Option String × InputState := (s.value, s)

/-- `Input.value` setter: writes the widget value, then `self.update()`. -/
def inputSet (s : InputState) (v : Option String) : InputState :=
  { s with value := v, updates := s.updates + 1 }

structure CheckboxState where
  label : String
  value : Bool
  kwargs : Kwargs
  updates : ℕ
deriving DecidableEq

/-- `Checkbox.__init__`: `self.checkbox = ft.Checkbox(label=label, value=value, **kwargs)`. -/
def checkboxInit (label : String) (value : Bool) (kwargs : Kwargs) : CheckboxState :=
  { label := label, value := value, kwargs := kwargs, updates := 0 }

/-- `Checkbox.value` getter. -/
def checkboxGet (s : CheckboxState) : Bool × CheckboxState := (s.value, s)

/-- `Checkbox.value` setter: writes the widget value, then `self.update()`. -/
def checkboxSet (s : CheckboxState) (v : Bool) : CheckboxState :=
  { s with value := v, updates := s.updates + 1 }

structure RadioGroupState where
  options : List String
  value : Option String
  kwargs : Kwargs
  updates : ℕ
deriving DecidableEq

/-- `RadioGroup.__init__`: one `ft.Radio` per option inside a column;
`valueKwarg` is the `value` option of the bag, if passed. -/
def radioGroupInit (options : List String) (valueKwarg : Option String)
    (kwargs : Kwargs) : RadioGroupState :=
  { options := options, value := valueKwarg, kwargs := kwargs, updates := 0 }

/-- `RadioGroup.value` getter. -/
def radioGroupGet (s : RadioGroupState) : Option String × RadioGroupState := (s.value, s)

/-- `RadioGroup.value` setter: writes the widget value, then `self.update()`. -/
def radioGroupSet (s : RadioGroupState) (v : Option String) : RadioGroupState :=
  { s with value := v, updates := s.updates + 1 }

structure DropdownState where
  options : List String
  value : Option String
  kwargs : Kwargs
  updates : ℕ
deriving DecidableEq

/-- `Dropdown.__init__`: one `ft.dropdown.Option` per option;
`valueKwarg` is the `value` option of the bag, if passed. -/
def dropdownInit (options : List String) (valueKwarg : Option String)
    (kwargs : Kwargs) : DropdownState :=
  { options := options, value := valueKwarg, kwargs := kwargs, updates := 0 }

/-- `Dropdown.value` getter. -/
def dropdownGet (s : DropdownState) : Option String × DropdownState := (s.value, s)

/-- `Dropdown.value` setter: writes the widget value, then `self.update()`. -/
def dropdownSet (s : DropdownState) (v : Option String) : DropdownState :=
  { s with value := v, updates := s.updates + 1 }

structure SliderState where
  min : ℚ
  max : ℚ
  value : ℚ
  kwargs : Kwargs
  updates : ℕ
deriving DecidableEq

/-- `Slider.__init__`: `self.slider = ft.Slider(min=min, max=max, value=value, **kwargs)`. -/
def sliderInit (min max value : ℚ) (kwargs : Kwargs) : SliderState :=
  { min := min, max := max, value := value, kwargs := kwargs, updates := 0 }

/-- `Slider.value` getter. -/
def sliderGet (s : SliderState) : ℚ × SliderState := (s.value, s)

/-- `Slider.value` setter: writes the widget value, then `self.update()`. -/
def sliderSet (s : SliderState) (v : ℚ) : SliderState :=
  { s with value := v, updates := s.updates + 1 }

structure ProgressBarState where
  value : ℚ
  kwargs : Kwargs
  updates : ℕ
deriving DecidableEq

/-- `ProgressBar.__init__`: `self.progress_bar = ft.ProgressBar(value=value, **kwargs)`. -/
def progressBarInit (value : ℚ) (kwargs : Kwargs) : ProgressBarState :=
  { value := value, kwargs := kwargs, updates := 0 }

/-- `ProgressBar.value` getter. -/
def progressBarGet (s : ProgressBarState) : ℚ × ProgressBarState := (s.value, s)

/-- `ProgressBar.value` setter: writes the widget value, then `self.update()`. -/
def progressBarSet (s : ProgressBarState) (v : ℚ) : ProgressBarState :=
  { s with value := v, updates := s.updates + 1 }

/-! ## Widget tree (the flet structures built by the list/table/form adapters) -/

/-- The subset of flet widget constructors these adapters instantiate. -/
inductive Widget where
  | ftText : String → Widget
  | column : List Widget → Kwargs → Widget
  | container : Widget → Kwargs → Widget
  | elevatedButton : String → Option Callback → Widget
  | dataColumn : Widget → Widget
  | dataCell : Widget → Widget
  | dataRow : List Widget → Widget
  | dataTable : List Widget → List Widget → Kwargs → Widget

/-- The marker character sequence in the `UnorderedList` f-string literal. -/
def bulletMarker : String := "â€¢"

/-- `UnorderedList.build`: `ft.Column(controls=[ft.Text(f"â€¢ {item}") for item
in self.items], **self.kwargs)`. -/
def unorderedListBuild (items : List String) (kwargs : Kwargs) : Widget :=
  .column (items.map fun item => .ftText (bulletMarker ++ " " ++ item)) kwargs

/-- `OrderedList.build`: `ft.Column(controls=[ft.Text(f"{i+1}. {item}") for i,
item in enumerate(self.items)], **self.kwargs)`. -/
def orderedListBuild (items : List String) (kwargs : Kwargs) : Widget :=
  .column (items.enum.map fun p => .ftText (toString (p.1 + 1) ++ ". " ++ p.2)) kwargs

/-- `Table.build`: one `ft.DataColumn(ft.Text(header))` per header and one
`ft.DataRow` of `ft.DataCell(ft.Text(cell))` per row. -/
def tableBuild (headers : List String) (rows : List (List String))
    (kwargs : Kwargs) : Widget :=
  .dataTable (headers.map fun header => .dataColumn (.ftText header))
    (rows.map fun row => .dataRow (row.map fun cell => .dataCell (.ftText cell)))
    kwargs

/-- `Form.build`: a container around a column of the children followed by
`ft.ElevatedButton("Submit", on_click=self.on_submit)`. -/
def formBuild (controls : List Widget) (onSubmit : Option Callback)
    (kwargs : Kwargs) : Widget :=
  .container (.column (controls ++ [.elevatedButton "Submit" onSubmit]) []) kwargs

/-- `Div.build`: `ft.Container(content=ft.Column(controls=list(self.controls)),
**self.kwargs)` — the column itself receives no option of the bag. -/
def divBuild (controls : List Widget) (kwargs : Kwargs) : Widget :=
  .container (.column controls []) kwargs

/-- The `controls` list of a column widget. -/
def columnControls : Widget → List Widget
  | .column controls _ => controls
  | _ => []

/-- The configuration bag of a column widget. -/
def columnKwargs : Widget → Kwargs
  | .column _ kwargs => kwargs
  | _ => []

/-- The `content` child of a container widget. -/
def containerContent : Widget → Widget
  | .container content _ => content
  | w => w

/-- The configuration bag of a container widget. -/
def containerKwargs : Widget → Kwargs
  | .container _ kwargs => kwargs
  | _ => []

/-- The column list of a data table. -/
def tableColumns : Widget → List Widget
  | .dataTable columns _ _ => columns
  | _ => []

/-- The row list of a data table. -/
def tableRows : Widget → List Widget
  | .dataTable _ rows _ => rows
  | _ => []

/-- The header text of a data column, when it wraps a text widget. -/
def dataColumnText : Widget → Option String
  | .dataColumn (.ftText s) => some s
  | _ => none

/-- The cell texts of a data row, for cells wrapping text widgets. -/
def dataRowTexts : Widget → List (Option String)
  | .dataRow cells => cells.map fun c =>
      match c with
      | .dataCell (.ftText s) => some s
      | _ => none
  | _ => []

/-- Spec-side formula for C5: each item prefixed with the bullet marker. -/
def unorderedLinesSpec (items : List String) : List String :=
  items.map fun item => bulletMarker ++ " " ++ item

/-- Spec-side formula for C4: the line for the item at 0-based position `i`
is `"<i+1>. <item>"`. -/
def orderedLinesSpec (items : List String) : List String :=
  (List.range items.length).zipWith (fun i item => toString (i + 1) ++ ". " ++ item) items

/-! ## Tabs (src/main.py lines 241–250) -/

/-- A pre-built `ft.Tab` object, identified by its constructor fields. -/
structure FtTab where
  fields : Kwargs
deriving DecidableEq

/-- A tab descriptor: `Union[ft.Tab, dict]`; a dict is a plain record of
named fields. -/
abbrev TabDescriptor := FtTab ⊕ Kwargs

/-- The per-descriptor normalization in `Tabs.__init__`:
`ft.Tab(**tab) if isinstance(tab, dict) else tab`. -/
def normalizeTab : TabDescriptor → FtTab
  | .inr record => ⟨record⟩
  | .inl tab => tab

/-- The `ft.Tabs` widget built in `Tabs.__init__`. -/
structure FtTabs where
  tabs : List FtTab
  kwargs : Kwargs
deriving DecidableEq

/-- `Tabs.__init__`: `ft.Tabs(tabs=[ft.Tab(**tab) if isinstance(tab, dict)
else tab for tab in tabs], **kwargs)`; `build` returns this stored widget. -/
def tabsInit (tabs : List TabDescriptor) (kwargs : Kwargs) : FtTabs :=
  ⟨tabs.map normalizeTab, kwargs⟩

/-! ## Widget identity (C8)

Object identity is modelled by allocation: every widget object constructed
gets a fresh identifier from a monotone counter.  An adapter that builds its
widget in `__init__` stores that identifier and `build` returns it
unchanged; `Div.build` and `Form.build` construct new widget objects on
every call, so they draw fresh identifiers each time. -/

abbrev WidgetId := ℕ

/-- The stored `self.text_control` of a `Text` adapter. -/
structure TextAlloc where
  id : WidgetId
deriving DecidableEq

/-- `Text.__init__` allocates one `ft.Text` object and stores it. -/
def textInitAlloc (c : ℕ) : TextAlloc × ℕ := (⟨c⟩, c + 1)

/-- `Text.build`: `return self.text_control` — no new object is created. -/
def textBuildAlloc (s : TextAlloc) (c : ℕ) : WidgetId × ℕ := (s.id, c)

/-- The state a `Div` adapter stores: only its children, no widget. -/
structure DivAlloc where
  controls : List WidgetId
deriving DecidableEq

/-- `Div.__init__` stores the children and allocates no widget. -/
def divInitAlloc (controls : List WidgetId) : DivAlloc := ⟨controls⟩

/-- `Div.build` constructs a fresh `ft.Column` (id `c`) and a fresh
`ft.Container` (id `c + 1`) and returns the container. -/
def divBuildAlloc (_ : DivAlloc) (c : ℕ) : WidgetId × ℕ := (c + 1, c + 2)

/-- The state a `Form` adapter stores: children and the submit handler. -/
structure FormAlloc where
  controls : List WidgetId
  onSubmit : Option Callback
deriving DecidableEq

/-- `Form.__init__` stores children and handler and allocates no widget. -/
def formInitAlloc (controls : List WidgetId) (onSubmit : Option Callback) : FormAlloc :=
  ⟨controls, onSubmit⟩

/-- `Form.build` constructs a fresh `ft.ElevatedButton` (id `c`), a fresh
`ft.Column` (id `c + 1`) and a fresh `ft.Container` (id `c + 2`) and returns
the container. -/
def formBuildAlloc (_ : FormAlloc) (c : ℕ) : WidgetId × ℕ := (c + 2, c + 3)

/-- The stored `self.button` of a `Button` adapter. -/
structure ButtonAlloc where
  id : WidgetId
deriving DecidableEq

/-- `Button.__init__` allocates one `ft.ElevatedButton` and stores it. -/
def buttonInitAlloc (c : ℕ) : ButtonAlloc × ℕ := (⟨c⟩, c + 1)

/-- `Button.build`: `return self.button` — no new object is created. -/
def buttonBuildAlloc (s : ButtonAlloc) (c : ℕ) : WidgetId × ℕ := (s.id, c)

/-- The stored `self.input` of an `Input` adapter. -/
structure InputAlloc where
  id : WidgetId
deriving DecidableEq

/-- `Input.__init__` allocates one `ft.TextField` and stores it. -/
def inputInitAlloc (c : ℕ) : InputAlloc × ℕ := (⟨c⟩, c + 1)

/-- `Input.build`: `return self.input` — no new object is created. -/
def inputBuildAlloc (s : InputAlloc) (c : ℕ) : WidgetId × ℕ := (s.id, c)

/-- The stored `self.image` of an `Image` adapter. -/
structure ImageAlloc where
  id : WidgetId
deriving DecidableEq

/-- `Image.__init__` allocates one `ft.Image` and stores it. -/
def imageInitAlloc (c : ℕ) : ImageAlloc × ℕ := (⟨c⟩, c + 1)

/-- `Image.build`: `return self.image` — no new object is created. -/
def imageBuildAlloc (s : ImageAlloc) (c : ℕ) : WidgetId × ℕ := (s.id, c)

/-- The stored `self.text` of a `Heading` adapter. -/
structure HeadingAlloc where
  id : WidgetId
deriving DecidableEq

/-- `Heading.__init__` allocates one `ft.Text` and stores it. -/
def headingInitAlloc (c : ℕ) : HeadingAlloc × ℕ := (⟨c⟩, c + 1)

/-- `Heading.build`: `return self.text` — no new object is created. -/
def headingBuildAlloc (s : HeadingAlloc) (c : ℕ) : WidgetId × ℕ := (s.id, c)

/-- The stored `self.paragraph` of a `Paragraph` adapter. -/
structure ParagraphAlloc where
  id : WidgetId
deriving DecidableEq

/-- `Paragraph.__init__` allocates one `ft.Text` and stores it. -/
def paragraphInitAlloc (c : ℕ) : ParagraphAlloc × ℕ := (⟨c⟩, c + 1)

/-- `Paragraph.build`: `return self.paragraph` — no new object is created. -/
def paragraphBuildAlloc (s : ParagraphAlloc) (c : ℕ) : WidgetId × ℕ := (s.id, c)

/-- The stored `self.link` of a `Link` adapter. -/
structure LinkAlloc where
  id : WidgetId
deriving DecidableEq

/-- `Link.__init__` allocates one `ft.TextButton` and stores it. -/
def linkInitAlloc (c : ℕ) : LinkAlloc × ℕ := (⟨c⟩, c + 1)

/-- `Link.build`: `return self.link` — no new object is created. -/
def linkBuildAlloc (s : LinkAlloc) (c : ℕ) : WidgetId × ℕ := (s.id, c)

/-- The stored `self.checkbox` of a `Checkbox` adapter. -/
structure CheckboxAlloc where
  id : WidgetId
deriving DecidableEq

/-- `Checkbox.__init__` allocates one `ft.Checkbox` and stores it. -/
def checkboxInitAlloc (c : ℕ) : CheckboxAlloc × ℕ := (⟨c⟩, c + 1)

/-- `Checkbox.build`: `return self.checkbox` — no new object is created. -/
def checkboxBuildAlloc (s : CheckboxAlloc) (c : ℕ) : WidgetId × ℕ := (s.id, c)

/-- The stored `self.radio_group` of a `RadioGroup` adapter. -/
structure RadioGroupAlloc where
  id : WidgetId
deriving DecidableEq

/-- `RadioGroup.__init__` over `n` options allocates `n` `ft.Radio` objects
(ids `c` to `c + n - 1`), one `ft.Column` (id `c + n`) and one
`ft.RadioGroup` (id `c + n + 1`, stored). -/
def radioGroupInitAlloc (n c : ℕ) : RadioGroupAlloc × ℕ := (⟨c + n + 1⟩, c + n + 2)

/-- `RadioGroup.build`: `return self.radio_group` — no new object is created. -/
def radioGroupBuildAlloc (s : RadioGroupAlloc) (c : ℕ) : WidgetId × ℕ := (s.id, c)

/-- The stored `self.dropdown` of a `Dropdown` adapter. -/
structure DropdownAlloc where
  id : WidgetId
deriving DecidableEq

/-- `Dropdown.__init__` over `n` options allocates `n` `ft.dropdown.Option`
objects (ids `c` to `c + n - 1`) and one `ft.Dropdown` (id `c + n`, stored). -/
def dropdownInitAlloc (n c : ℕ) : DropdownAlloc × ℕ := (⟨c + n⟩, c + n + 1)

/-- `Dropdown.build`: `return self.dropdown` — no new object is created. -/
def dropdownBuildAlloc (s : DropdownAlloc) (c : ℕ) : WidgetId × ℕ := (s.id, c)

/-- The stored `self.slider` of a `Slider` adapter. -/
structure SliderAlloc where
  id : WidgetId
deriving DecidableEq

/-- `Slider.__init__` allocates one `ft.Slider` and stores it. -/
def sliderInitAlloc (c : ℕ) : SliderAlloc × ℕ := (⟨c⟩, c + 1)

/-- `Slider.build`: `return self.slider` — no new object is created. -/
def sliderBuildAlloc (s : SliderAlloc) (c : ℕ) : WidgetId × ℕ := (s.id, c)

/-- The stored `self.progress_bar` of a `ProgressBar` adapter. -/
structure ProgressBarAlloc where
  id : WidgetId
deriving DecidableEq

/-- `ProgressBar.__init__` allocates one `ft.ProgressBar` and stores it. -/
def progressBarInitAlloc (c : ℕ) : ProgressBarAlloc × ℕ := (⟨c⟩, c + 1)

/-- `ProgressBar.build`: `return self.progress_bar` — no new object is created. -/
def progressBarBuildAlloc (s : ProgressBarAlloc) (c : ℕ) : WidgetId × ℕ := (s.id, c)

/-- The stored `self.tabs` of a `Tabs` adapter. -/
structure TabsAlloc where
  id : WidgetId
deriving DecidableEq

/-- `Tabs.__init__` with `k` dict descriptors allocates `k` fresh `ft.Tab`
objects (ids `c` to `c + k - 1`; pre-built tabs are reused, not constructed)
and one `ft.Tabs` (id `c + k`, stored). -/
def tabsInitAlloc (k c : ℕ) : TabsAlloc × ℕ := (⟨c + k⟩, c + k + 1)

/-- `Tabs.build`: `return self.tabs` — no new object is created. -/
def tabsBuildAlloc (s : TabsAlloc) (c : ℕ) : WidgetId × ℕ := (s.id, c)

/-- The stored `self.alert` of an `Alert` adapter. -/
structure AlertAlloc where
  id : WidgetId
deriving DecidableEq

/-- `Alert.__init__` allocates one `ft.Text` (id `c`) and one `ft.Container`
(id `c + 1`, stored). -/
def alertInitAlloc (c : ℕ) : AlertAlloc × ℕ := (⟨c + 1⟩, c + 2)

/-- `Alert.build`: `return self.alert` — no new object is created. -/
def alertBuildAlloc (s : AlertAlloc) (c : ℕ) : WidgetId × ℕ := (s.id, c)

/-- The state an `UnorderedList` adapter stores: only its items, no widget. -/
structure UListAlloc where
  items : List String
deriving DecidableEq

/-- `UnorderedList.__init__` stores the items and allocates no widget. -/
def uListInitAlloc (items : List String) : UListAlloc := ⟨items⟩

/-- `UnorderedList.build` constructs one fresh `ft.Text` per item (ids `c`
to `c + n - 1`) and a fresh `ft.Column` (id `c + n`) and returns the column. -/
def uListBuildAlloc (s : UListAlloc) (c : ℕ) : WidgetId × ℕ :=
  (c + s.items.length, c + s.items.length + 1)

/-- The state an `OrderedList` adapter stores: only its items, no widget. -/
structure OListAlloc where
  items : List String
deriving DecidableEq

/-- `OrderedList.__init__` stores the items and allocates no widget. -/
def oListInitAlloc (items : List String) : OListAlloc := ⟨items⟩

/-- `OrderedList.build` constructs one fresh `ft.Text` per item (ids `c` to
`c + n - 1`) and a fresh `ft.Column` (id `c + n`) and returns the column. -/
def oListBuildAlloc (s : OListAlloc) (c : ℕ) : WidgetId × ℕ :=
  (c + s.items.length, c + s.items.length + 1)

/-- The state a `Table` adapter stores: headers and rows, no widget. -/
structure TableAlloc where
  headers : List String
  rows : List (List String)
deriving DecidableEq

/-- `Table.__init__` stores headers and rows and allocates no widget. -/
def tableInitAlloc (headers : List String) (rows : List (List String)) : TableAlloc :=
  ⟨headers, rows⟩

/-- `Table.build` constructs a fresh `ft.Text` and `ft.DataColumn` per
header, a fresh `ft.Text` and `ft.DataCell` per cell and a fresh
`ft.DataRow` per row, then a fresh `ft.DataTable` (the last id, returned). -/
def tableBuildAlloc (s : TableAlloc) (c : ℕ) : WidgetId × ℕ :=
  (c + 2 * s.headers.length + (s.rows.map fun r => 2 * r.length + 1).sum,
   c + 2 * s.headers.length + (s.rows.map fun r => 2 * r.length + 1).sum + 1)

/-! ## Theorems -/

/-- C1: for every level in 1–6 the heading's font size is the fixed table
value (1:32, 2:24, 3:18.72, 4:16, 5:13.28, 6:10.72), for every other integer
level it is 16, and the weight is always bold. -/
theorem heading_font_size_spec (level : ℤ) (text : String) :
    (headingBuild level text).weight = "bold" ∧
    (headingBuild level text).size =
      (if level = 1 then 32 else if level = 2 then 24 else
       if level = 3 then 1872/100 else if level = 4 then 16 else
       if level = 5 then 1328/100 else if level = 6 then 1072/100 else 16) := by
  refine ⟨rfl, ?_⟩
  by_cases h1 : level = 1
  · subst h1; rfl
  by_cases h2 : level = 2
  · subst h2; rfl
  by_cases h3 : level = 3
  · subst h3; rfl
  by_cases h4 : level = 4
  · subst h4; rfl
  by_cases h5 : level = 5
  · subst h5; rfl
  by_cases h6 : level = 6
  · subst h6; rfl
  simp only [headingBuild, dictGet, headingSizes]
  rw [if_neg fun h => h1 h.symm, if_neg fun h => h2 h.symm, if_neg fun h => h3 h.symm,
    if_neg fun h => h4 h.symm, if_neg fun h => h5 h.symm, if_neg fun h => h6 h.symm,
    if_neg h1, if_neg h2, if_neg h3, if_neg h4, if_neg h5, if_neg h6]

/-- C2: the alert's background color follows the fixed severity mapping with
the info color as default for any other severity string; padding is 10 and
border radius 5 in all cases. -/
theorem alert_color_spec (text severity : String) (kwargs : Kwargs) :
    (alertBuild text severity kwargs).bgcolor =
      (if severity = "info" then .blue else if severity = "success" then .green else
       if severity = "warning" then .orange else if severity = "error" then .red
       else FtColor.blue) ∧
    (alertBuild text severity kwargs).padding = 10 ∧
    (alertBuild text severity kwargs).borderRadius = 5 := by
  refine ⟨?_, rfl, rfl⟩
  by_cases h1 : severity = "info"
  · subst h1; rfl
  by_cases h2 : severity = "success"
  · subst h2; rfl
  by_cases h3 : severity = "warning"
  · subst h3; rfl
  by_cases h4 : severity = "error"
  · subst h4; rfl
  simp only [alertBuild, colorGet, alertColors]
  rw [if_neg fun h => h1 h.symm, if_neg fun h => h2 h.symm, if_neg fun h => h3 h.symm,
    if_neg fun h => h4 h.symm, if_neg h1, if_neg h2, if_neg h3, if_neg h4]

/-- C3: for each value-bearing adapter (Text, Input, Checkbox, RadioGroup,
Dropdown, Slider, ProgressBar), reading right after construction returns the
initial value passed to the constructor, reading changes nothing (no
redisplay), and setting a value makes subsequent reads return it while
triggering exactly one redisplay per set. -/
theorem value_adapter_proxy_spec
    (t vStr : String) (sT : TextState)
    (ph : String) (vIn : Option String) (sI : InputState)
    (lb : String) (b vB : Bool) (sC : CheckboxState)
    (opts : List String) (vR : Option String) (sR : RadioGroupState)
    (sD : DropdownState)
    (lo hi x vQ : ℚ) (sS : SliderState)
    (sP : ProgressBarState) (kw : Kwargs) :
    ((textGet (textInit t kw)).1 = t ∧ (textGet sT).2 = sT ∧
      (textGet (textSet sT vStr)).1 = vStr ∧ (textSet sT vStr).updates = sT.updates + 1) ∧
    ((inputGet (inputInit ph vIn kw)).1 = vIn ∧ (inputGet sI).2 = sI ∧
      (inputGet (inputSet sI vIn)).1 = vIn ∧ (inputSet sI vIn).updates = sI.updates + 1) ∧
    ((checkboxGet (checkboxInit lb b kw)).1 = b ∧ (checkboxGet sC).2 = sC ∧
      (checkboxGet (checkboxSet sC vB)).1 = vB ∧
      (checkboxSet sC vB).updates = sC.updates + 1) ∧
    ((radioGroupGet (radioGroupInit opts vR kw)).1 = vR ∧ (radioGroupGet sR).2 = sR ∧
      (radioGroupGet (radioGroupSet sR vR)).1 = vR ∧
      (radioGroupSet sR vR).updates = sR.updates + 1) ∧
    ((dropdownGet (dropdownInit opts vR kw)).1 = vR ∧ (dropdownGet sD).2 = sD ∧
      (dropdownGet (dropdownSet sD vR)).1 = vR ∧
      (dropdownSet sD vR).updates = sD.updates + 1) ∧
    ((sliderGet (sliderInit lo hi x kw)).1 = x ∧ (sliderGet sS).2 = sS ∧
      (sliderGet (sliderSet sS vQ)).1 = vQ ∧ (sliderSet sS vQ).updates = sS.updates + 1) ∧
    ((progressBarGet (progressBarInit x kw)).1 = x ∧ (progressBarGet sP).2 = sP ∧
      (progressBarGet (progressBarSet sP vQ)).1 = vQ ∧
      (progressBarSet sP vQ).updates = sP.updates + 1) :=
  ⟨⟨rfl, rfl, rfl, rfl⟩, ⟨rfl, rfl, rfl, rfl⟩, ⟨rfl, rfl, rfl, rfl⟩,
    ⟨rfl, rfl, rfl, rfl⟩, ⟨rfl, rfl, rfl, rfl⟩, ⟨rfl, rfl, rfl, rfl⟩,
    ⟨rfl, rfl, rfl, rfl⟩⟩

/-- C4: OrderedList builds one line per item in input order, the line at
0-based position i being "<i+1>. <item>"; e.g. items x, y, z give
"1. x", "2. y", "3. z". -/
theorem orderedList_lines_spec (items : List String) (kwargs : Kwargs) :
    orderedListBuild items kwargs =
      .column ((orderedLinesSpec items).map .ftText) kwargs ∧
    orderedListBuild ["x", "y", "z"] [] =
      .column [.ftText "1. x", .ftText "2. y", .ftText "3. z"] [] := by
  constructor
  · simp only [orderedListBuild, orderedLinesSpec, List.enum_eq_zip_range,
      List.zip_eq_zipWith, List.map_zipWith]
  · rfl

/-- C5: UnorderedList builds one line per item in input order, each a
bullet marker, a space, then the item verbatim. -/
theorem unorderedList_lines_spec (items : List String) (kwargs : Kwargs) :
    unorderedListBuild items kwargs =
      .column ((unorderedLinesSpec items).map .ftText) kwargs ∧
    unorderedListBuild ["a", "b"] [] =
      .column [.ftText (bulletMarker ++ " a"), .ftText (bulletMarker ++ " b")] [] := by
  constructor
  · simp only [unorderedListBuild, unorderedLinesSpec, List.map_map]
    rfl
  · rfl

/-- C6: Table builds exactly one column per header and one row per input
row, in input order, every header and cell text matching the input verbatim. -/
theorem table_structure_spec (headers : List String) (rows : List (List String))
    (kwargs : Kwargs) :
    (tableColumns (tableBuild headers rows kwargs)).length = headers.length ∧
    (tableColumns (tableBuild headers rows kwargs)).map dataColumnText = headers.map some ∧
    (tableRows (tableBuild headers rows kwargs)).length = rows.length ∧
    (tableRows (tableBuild headers rows kwargs)).map dataRowTexts =
      rows.map fun row => row.map some := by
  refine ⟨by simp [tableBuild, tableColumns], ?_, by simp [tableBuild, tableRows], ?_⟩
  · simp only [tableBuild, tableColumns, List.map_map]
    rfl
  · simp only [tableBuild, tableRows, List.map_map]
    have h : ∀ row : List String,
        dataRowTexts (Widget.dataRow (row.map fun cell => .dataCell (.ftText cell))) =
          row.map some := by
      intro row
      simp only [dataRowTexts, List.map_map]
      rfl
    simp only [Function.comp_def]
    simp only [h]

/-- C7: Form builds a container whose column holds exactly the given
children in order followed by one final "Submit" button wired to the
submit handler. -/
theorem form_submit_append_spec (controls : List Widget) (onSubmit : Option Callback)
    (kwargs : Kwargs) :
    (columnControls (containerContent (formBuild controls onSubmit kwargs))).take
        controls.length = controls ∧
    (columnControls (containerContent (formBuild controls onSubmit kwargs))).length =
      controls.length + 1 ∧
    (columnControls (containerContent (formBuild controls onSubmit kwargs))).getLast? =
      some (.elevatedButton "Submit" onSubmit) := by
  refine ⟨?_, ?_, ?_⟩ <;>
    simp [formBuild, containerContent, columnControls, List.take_left,
      List.getLast?_concat]

/-- C8 counterexample: two consecutive `build()` calls on one Div adapter
return two distinct widget objects, so `build()` does not always return the
same single wrapped widget. -/
theorem div_build_not_same_widget :
    (divBuildAlloc (divInitAlloc []) 0).1 ≠
      (divBuildAlloc (divInitAlloc []) ((divBuildAlloc (divInitAlloc []) 0).2)).1 := by
  decide

/-- C8 amended: every adapter that creates its widget in the constructor
(Text, Button, Input, Image, Heading, Paragraph, Link, Checkbox, RadioGroup,
Dropdown, Slider, ProgressBar, Tabs, Alert) returns that same stored widget
from every `build()` call, allocates nothing at build time, and freshly
allocated its stored widget at construction — its widget id lies in the id
range its own construction consumed, so separately constructed adapters
never share a widget; Div, Form, UnorderedList, OrderedList and Table
construct a fresh, newly allocated widget on every `build()` call. -/
theorem adapter_widget_ownership_amended
    (tS : TextAlloc) (bS : ButtonAlloc) (iS : InputAlloc) (imS : ImageAlloc)
    (hS : HeadingAlloc) (pS : ParagraphAlloc) (lS : LinkAlloc) (cbS : CheckboxAlloc)
    (rS : RadioGroupAlloc) (ddS : DropdownAlloc) (slS : SliderAlloc)
    (pbS : ProgressBarAlloc) (tbS : TabsAlloc) (aS : AlertAlloc)
    (dvS : DivAlloc) (fS : FormAlloc) (uS : UListAlloc) (oS : OListAlloc)
    (taS : TableAlloc) (n k c c' : ℕ) :
    ((textBuildAlloc tS c).1 = (textBuildAlloc tS c').1 ∧ (textBuildAlloc tS c).2 = c ∧
      c ≤ (textInitAlloc c).1.id ∧ (textInitAlloc c).1.id < (textInitAlloc c).2) ∧
    ((buttonBuildAlloc bS c).1 = (buttonBuildAlloc bS c').1 ∧
      (buttonBuildAlloc bS c).2 = c ∧
      c ≤ (buttonInitAlloc c).1.id ∧ (buttonInitAlloc c).1.id < (buttonInitAlloc c).2) ∧
    ((inputBuildAlloc iS c).1 = (inputBuildAlloc iS c').1 ∧
      (inputBuildAlloc iS c).2 = c ∧
      c ≤ (inputInitAlloc c).1.id ∧ (inputInitAlloc c).1.id < (inputInitAlloc c).2) ∧
    ((imageBuildAlloc imS c).1 = (imageBuildAlloc imS c').1 ∧
      (imageBuildAlloc imS c).2 = c ∧
      c ≤ (imageInitAlloc c).1.id ∧ (imageInitAlloc c).1.id < (imageInitAlloc c).2) ∧
    ((headingBuildAlloc hS c).1 = (headingBuildAlloc hS c').1 ∧
      (headingBuildAlloc hS c).2 = c ∧
      c ≤ (headingInitAlloc c).1.id ∧
      (headingInitAlloc c).1.id < (headingInitAlloc c).2) ∧
    ((paragraphBuildAlloc pS c).1 = (paragraphBuildAlloc pS c').1 ∧
      (paragraphBuildAlloc pS c).2 = c ∧
      c ≤ (paragraphInitAlloc c).1.id ∧
      (paragraphInitAlloc c).1.id < (paragraphInitAlloc c).2) ∧
    ((linkBuildAlloc lS c).1 = (linkBuildAlloc lS c').1 ∧
      (linkBuildAlloc lS c).2 = c ∧
      c ≤ (linkInitAlloc c).1.id ∧ (linkInitAlloc c).1.id < (linkInitAlloc c).2) ∧
    ((checkboxBuildAlloc cbS c).1 = (checkboxBuildAlloc cbS c').1 ∧
      (checkboxBuildAlloc cbS c).2 = c ∧
      c ≤ (checkboxInitAlloc c).1.id ∧
      (checkboxInitAlloc c).1.id < (checkboxInitAlloc c).2) ∧
    ((radioGroupBuildAlloc rS c).1 = (radioGroupBuildAlloc rS c').1 ∧
      (radioGroupBuildAlloc rS c).2 = c ∧
      c ≤ (radioGroupInitAlloc n c).1.id ∧
      (radioGroupInitAlloc n c).1.id < (radioGroupInitAlloc n c).2) ∧
    ((dropdownBuildAlloc ddS c).1 = (dropdownBuildAlloc ddS c').1 ∧
      (dropdownBuildAlloc ddS c).2 = c ∧
      c ≤ (dropdownInitAlloc n c).1.id ∧
      (dropdownInitAlloc n c).1.id < (dropdownInitAlloc n c).2) ∧
    ((sliderBuildAlloc slS c).1 = (sliderBuildAlloc slS c').1 ∧
      (sliderBuildAlloc slS c).2 = c ∧
      c ≤ (sliderInitAlloc c).1.id ∧ (sliderInitAlloc c).1.id < (sliderInitAlloc c).2) ∧
    ((progressBarBuildAlloc pbS c).1 = (progressBarBuildAlloc pbS c').1 ∧
      (progressBarBuildAlloc pbS c).2 = c ∧
      c ≤ (progressBarInitAlloc c).1.id ∧
      (progressBarInitAlloc c).1.id < (progressBarInitAlloc c).2) ∧
    ((tabsBuildAlloc tbS c).1 = (tabsBuildAlloc tbS c').1 ∧
      (tabsBuildAlloc tbS c).2 = c ∧
      c ≤ (tabsInitAlloc k c).1.id ∧ (tabsInitAlloc k c).1.id < (tabsInitAlloc k c).2) ∧
    ((alertBuildAlloc aS c).1 = (alertBuildAlloc aS c').1 ∧
      (alertBuildAlloc aS c).2 = c ∧
      c ≤ (alertInitAlloc c).1.id ∧ (alertInitAlloc c).1.id < (alertInitAlloc c).2) ∧
    ((divBuildAlloc dvS c).1 ≠ (divBuildAlloc dvS (divBuildAlloc dvS c).2).1 ∧
      c ≤ (divBuildAlloc dvS c).1 ∧ (divBuildAlloc dvS c).1 < (divBuildAlloc dvS c).2) ∧
    ((formBuildAlloc fS c).1 ≠ (formBuildAlloc fS (formBuildAlloc fS c).2).1 ∧
      c ≤ (formBuildAlloc fS c).1 ∧ (formBuildAlloc fS c).1 < (formBuildAlloc fS c).2) ∧
    ((uListBuildAlloc uS c).1 ≠ (uListBuildAlloc uS (uListBuildAlloc uS c).2).1 ∧
      c ≤ (uListBuildAlloc uS c).1 ∧ (uListBuildAlloc uS c).1 < (uListBuildAlloc uS c).2) ∧
    ((oListBuildAlloc oS c).1 ≠ (oListBuildAlloc oS (oListBuildAlloc oS c).2).1 ∧
      c ≤ (oListBuildAlloc oS c).1 ∧ (oListBuildAlloc oS c).1 < (oListBuildAlloc oS c).2) ∧
    ((tableBuildAlloc taS c).1 ≠ (tableBuildAlloc taS (tableBuildAlloc taS c).2).1 ∧
      c ≤ (tableBuildAlloc taS c).1 ∧
      (tableBuildAlloc taS c).1 < (tableBuildAlloc taS c).2) := by
  refine ⟨?_, ?_, ?_, ?_, ?_, ?_, ?_, ?_, ?_, ?_, ?_, ?_, ?_, ?_, ?_, ?_, ?_, ?_, ?_⟩
  · exact ⟨rfl, rfl, Nat.le_refl c, Nat.lt_succ_self c⟩
  · exact ⟨rfl, rfl, Nat.le_refl c, Nat.lt_succ_self c⟩
  · exact ⟨rfl, rfl, Nat.le_refl c, Nat.lt_succ_self c⟩
  · exact ⟨rfl, rfl, Nat.le_refl c, Nat.lt_succ_self c⟩
  · exact ⟨rfl, rfl, Nat.le_refl c, Nat.lt_succ_self c⟩
  · exact ⟨rfl, rfl, Nat.le_refl c, Nat.lt_succ_self c⟩
  · exact ⟨rfl, rfl, Nat.le_refl c, Nat.lt_succ_self c⟩
  · exact ⟨rfl, rfl, Nat.le_refl c, Nat.lt_succ_self c⟩
  · exact ⟨rfl, rfl, Nat.le_add_right c (n + 1), Nat.lt_succ_self (c + n + 1)⟩
  · exact ⟨rfl, rfl, Nat.le_add_right c n, Nat.lt_succ_self (c + n)⟩
  · exact ⟨rfl, rfl, Nat.le_refl c, Nat.lt_succ_self c⟩
  · exact ⟨rfl, rfl, Nat.le_refl c, Nat.lt_succ_self c⟩
  · exact ⟨rfl, rfl, Nat.le_add_right c k, Nat.lt_succ_self (c + k)⟩
  · exact ⟨rfl, rfl, Nat.le_add_right c 1, Nat.lt_succ_self (c + 1)⟩
  · exact ⟨by show c + 1 ≠ c + 2 + 1; omega, Nat.le_add_right c 1,
      Nat.lt_succ_self (c + 1)⟩
  · exact ⟨by show c + 2 ≠ c + 3 + 2; omega, Nat.le_add_right c 2,
      Nat.lt_succ_self (c + 2)⟩
  · exact ⟨by show c + uS.items.length ≠
        c + uS.items.length + 1 + uS.items.length; omega,
      Nat.le_add_right c uS.items.length, Nat.lt_succ_self (c + uS.items.length)⟩
  · exact ⟨by show c + oS.items.length ≠
        c + oS.items.length + 1 + oS.items.length; omega,
      Nat.le_add_right c oS.items.length, Nat.lt_succ_self (c + oS.items.length)⟩
  · refine ⟨?_, ?_, Nat.lt_succ_self
      (c + 2 * taS.headers.length + (taS.rows.map fun r => 2 * r.length + 1).sum)⟩
    · show c + 2 * taS.headers.length + (taS.rows.map fun r => 2 * r.length + 1).sum ≠
        c + 2 * taS.headers.length + (taS.rows.map fun r => 2 * r.length + 1).sum +
          1 + 2 * taS.headers.length + (taS.rows.map fun r => 2 * r.length + 1).sum
      omega
    · show c ≤ c + 2 * taS.headers.length + (taS.rows.map fun r => 2 * r.length + 1).sum
      omega

/-- C9: Tabs keeps the descriptor count and order; a descriptor that is a
plain record becomes a tab object built from that record's fields, and a
pre-built tab object is passed through unchanged. -/
theorem tabs_normalize_spec (ts : List TabDescriptor) (k : Kwargs) :
    (tabsInit ts k).tabs.length = ts.length ∧
    (∀ (i : ℕ) (t : FtTab), ts[i]? = some (Sum.inl t) →
      (tabsInit ts k).tabs[i]? = some t) ∧
    (∀ (i : ℕ) (r : Kwargs), ts[i]? = some (Sum.inr r) →
      (tabsInit ts k).tabs[i]? = some (FtTab.mk r)) := by
  refine ⟨by simp [tabsInit], ?_, ?_⟩ <;>
  · intro i x h
    simp [tabsInit, List.getElem?_map, h, normalizeTab]

/-- C9 witness: one pre-built tab passed through unchanged and one record
normalized into a tab, at concrete inputs. -/
theorem tabs_normalize_spec_witness :
    (tabsInit [Sum.inl (FtTab.mk [("text", 0)]), Sum.inr [("label", 1)]] []).tabs[0]? =
        some (FtTab.mk [("text", 0)]) ∧
    (tabsInit [Sum.inl (FtTab.mk [("text", 0)]), Sum.inr [("label", 1)]] []).tabs[1]? =
        some (FtTab.mk [("label", 1)]) :=
  ⟨(tabs_normalize_spec [Sum.inl (FtTab.mk [("text", 0)]), Sum.inr [("label", 1)]] []).2.1
      0 (FtTab.mk [("text", 0)]) rfl,
    (tabs_normalize_spec [Sum.inl (FtTab.mk [("text", 0)]), Sum.inr [("label", 1)]] []).2.2
      1 [("label", 1)] rfl⟩

/-- C10: Div applies the whole configuration bag to the outer container,
while the inner column receives exactly the children and no bag option. -/
theorem div_kwargs_to_container_spec (controls : List Widget) (kwargs : Kwargs) :
    containerKwargs (divBuild controls kwargs) = kwargs ∧
    columnControls (containerContent (divBuild controls kwargs)) = controls ∧
    columnKwargs (containerContent (divBuild controls kwargs)) = [] :=
  ⟨rfl, rfl, rfl⟩
